import Mathlib

set_option linter.unusedVariables false

/-! Shallow embedding of `src/scripts/run-evals.ts`: the full-mode retry
loop (`runEvalFull`), the single-shot runner (`runEval`), file staging, the
module-level d3k monitor handle (`startD3k` / `stopD3k`), the batch loop of
`main`, and the JSON summary writer (`writeJsonResults`).

External processes (the coding agent, build, lint, tests, the d3k dev
server) are opaque collaborators; an environment records their observable
outcomes (exit codes and captured output), and the runner's side effects are
collected into an event trace. Unexpected exceptions are modelled by
optional fault injections at the points where the source can realistically
throw: during staging, during d3k startup, and inside an attempt body. -/

/-- Gate identifiers: the three verification steps run after each agent
invocation. -/
inductive Gate
  | build
  | lint
  | tests
deriving DecidableEq, Repr

/-- Observable side effects of a run, in order of occurrence. -/
inductive Event
  | gitStash
  | copyTestFile (path : String)
  | copyStubFile (path : String)
  | startMonitor
  | agentInvoked (prompt : String) (attempt : Nat)
  | gateRun (g : Gate) (attempt : Nat)
  | stopMonitor
  | gitCheckout
  | gitClean
  | gitStashPop
deriving DecidableEq, Repr

/-- Run modes of the script: `"first-shot"` (default) and `"full"`
(`--full`). -/
inductive RunMode
  | firstShot
  | full
deriving DecidableEq, Repr

/-- Mirror of the `EvalResult` interface (run-evals.ts lines 27-36).
`duration` is kept in integer milliseconds: the source stores elapsed
seconds (`(Date.now() - startTime) / 1000`) and `writeJsonResults` rescales
by 1000 with rounding, which recovers the elapsed millisecond count. -/
structure EvalResult where
  name : String
  build : Bool
  lint : Bool
  tests : Bool
  duration : Nat
  attempts : Nat
  mode : RunMode
  error : Option String
deriving DecidableEq, Repr

/-- Outcomes of the external processes consulted during one attempt of the
retry loop: the agent's captured stdout, the d3k log scan
(`getD3kErrors()`), and the exit codes and captured streams of the three
gate commands. `fault` injects an unexpected exception raised while running
the attempt body; it is modelled at the start of the body, after
`result.attempts = attempt` (the body's first statement) has executed. -/
structure AttemptEnv where
  fault : Option String
  agentOut : String
  browserErrors : Option String
  buildExit : Int
  buildStdout : String
  buildStderr : String
  lintExit : Int
  lintStdout : String
  lintStderr : String
  testExit : Int
  testStdout : String
  testStderr : String

/-- Environment of one evaluation run: the fixture inputs resolved from the
evals cache, the pre-staging working tree, fault injection for the staging
phase, d3k readiness (whether the poll loop in `startD3k` succeeds within
its 30 tries), per-attempt process outcomes, and the elapsed wall time. -/
structure FullRunEnv where
  promptExists : Bool
  promptText : String
  testFiles : List String
  stubFiles : List String
  fileExists : String → Bool
  stagingFault : Option String
  d3kReady : Bool
  attempts : Nat → AttemptEnv
  elapsedMs : Nat

/-- MAX_FULL_ATTEMPTS constant (line 25). -/
def MAX_FULL_ATTEMPTS : Nat := 3

/-- Fixed instruction block appended to every eval prompt (lines 251-258,
identical text at lines 435-442). -/
def importantSuffix : String :=
  "\n\nIMPORTANT: Do not run npm, pnpm, yarn, bun, or any package manager commands. Dependencies have already been installed. Do not run build, test, or dev server commands. Just write the code files. DO NOT ask any followup questions either.\n\nThis is the opinionated-next project. Use the existing project structure:\n- Use Biome for linting (not ESLint)\n- Use explicit file extensions in imports (.ts for TypeScript, .tsx for TSX/JSX files)\n- Use subpath imports (#/) only when importing from src/ directory"

/-- Prompt composition (lines 435-451): base prompt plus the fixed
instruction block, plus - when `feedbackContext` is truthy, i.e. a
non-empty string - the previous attempt's failure dump. -/
def mkFullPrompt (basePrompt feedbackContext : String) : String :=
  let p := basePrompt ++ importantSuffix
  if feedbackContext = "" then p
  else
    p ++ "\n\nPREVIOUS ATTEMPT FAILED. Here\x27s the error from the browser/build:\n"
      ++ feedbackContext ++ "\n\nPlease fix the issue and try again."

/-- Feedback recorded when the build gate fails (line 484). -/
def buildFeedback (env : AttemptEnv) : String :=
  "Build failed:\n" ++ env.buildStderr ++ "\n" ++ env.buildStdout

/-- Feedback recorded when the lint gate fails (line 497). -/
def lintFeedback (env : AttemptEnv) : String :=
  "Lint failed:\n" ++ env.lintStderr ++ "\n" ++ env.lintStdout

/-- Feedback recorded when the test gate fails (lines 526-531): test
output, plus the browser error dump when `getD3kErrors()` matched one. -/
def testsFeedback (env : AttemptEnv) : String :=
  "Tests failed:\n" ++ String.intercalate "\n"
    ([env.testStdout, env.testStderr] ++
      match env.browserErrors with
      | some b => ["\nBrowser console errors:\n" ++ b]
      | none => [])

/-- Whether some gate of an attempt fails, given its process outcomes. -/
def attemptFailed (env : AttemptEnv) (hasTests : Bool) : Bool :=
  (env.buildExit != 0) || (env.lintExit != 0) || (hasTests && (env.testExit != 0))

/-- Whether all three gates of an attempt pass (the test gate passes
trivially when no test files were staged). -/
def attemptAllPass (env : AttemptEnv) (hasTests : Bool) : Bool :=
  (env.buildExit == 0) && (env.lintExit == 0) && (!hasTests || (env.testExit == 0))

/-- Captured output of the first failing gate of an attempt, with the
prefix the source attaches when assigning `feedbackContext`: build's output
if build failed, else lint's, else the test gate's. -/
def firstFailText (env : AttemptEnv) (hasTests : Bool) : String :=
  if env.buildExit != 0 then buildFeedback env
  else if env.lintExit != 0 then lintFeedback env
  else testsFeedback env

/-- Test-fixture staging (lines 383-392): every file found by
`find input -name "*.test.*"` is copied with `cpSync`, with no existence
check on the destination path. -/
def stageTestFiles (testFiles : List String) : List Event :=
  testFiles.map fun p => .copyTestFile p

/-- Whether a character list starts with the marker ".test.". -/
def startsWithTestMarker : List Char → Bool
  | '.' :: 't' :: 'e' :: 's' :: 't' :: '.' :: _ => true
  | _ => false

/-- Whether the string `".test."` occurs inside a path, i.e. the
`stubFile.includes(".test.")` test of line 409. -/
def hasTestMarker : List Char → Bool
  | [] => false
  | c :: cs => startsWithTestMarker (c :: cs) || hasTestMarker cs

/-- Stub staging (lines 395-420): the found *.ts/*.tsx files whose path
does not contain ".test." are copied only when no file already exists at
the destination (`if (!existsSync(destPath))`). Fixture paths always
contain ".test." and stub paths never do, so the fixture copies made just
before cannot affect this existence check; `fileExists` is the pre-staging
working tree. -/
def stageStubFiles (stubFiles : List String) (fileExists : String → Bool) :
    List Event :=
  (stubFiles.filter fun p =>
    !(hasTestMarker p.toList) && !(fileExists p)).map
    fun p => .copyStubFile p

/-- Gate executions recorded in a trace, in order. -/
def gatesOf (evs : List Event) : List Gate :=
  evs.filterMap fun e =>
    match e with
    | .gateRun g _ => some g
    | _ => none

/-- Whether an event is an invocation of the external coding agent. -/
def isAgentEvent : Event → Bool
  | .agentInvoked _ _ => true
  | _ => false

/-- Number of agent invocations recorded in a trace. -/
def agentCount (evs : List Event) : Nat :=
  (evs.filter isAgentEvent).length

/-- One iteration of runEvalFull's retry loop body (lines 429-543), minus
the fault injection handled by the loop: set `result.attempts`, compose the
prompt and invoke the agent, then run the gates. Each `continue` of the
source is guarded by `attempt < MAX_FULL_ATTEMPTS`, so on the final attempt
a failed gate falls through to the next gate. Returns the updated result,
the updated `feedbackContext`, whether the `break` on full success fired,
and the events of this iteration. -/
def fullAttempt (basePrompt : String) (hasTests : Bool) (maxA : Nat)
    (env : AttemptEnv) (attempt : Nat) (feedbackContext : String)
    (res : EvalResult) : EvalResult × String × Bool × List Event :=
  let res1 := { res with attempts := attempt }
  let prompt := mkFullPrompt basePrompt feedbackContext
  let buildOk := env.buildExit == 0
  let res2 := { res1 with build := buildOk }
  if !buildOk && decide (attempt < maxA) then
    (res2, buildFeedback env, false,
      [.agentInvoked prompt attempt, .gateRun .build attempt])
  else
    let fb1 := if buildOk then feedbackContext else buildFeedback env
    let lintOk := env.lintExit == 0
    let res3 := { res2 with lint := lintOk }
    if !lintOk && decide (attempt < maxA) then
      (res3, lintFeedback env, false,
        [.agentInvoked prompt attempt, .gateRun .build attempt,
         .gateRun .lint attempt])
    else
      let fb2 := if lintOk then fb1 else lintFeedback env
      if hasTests then
        let testsOk := env.testExit == 0
        let res4 := { res3 with tests := testsOk }
        let fb3 := if testsOk then fb2 else testsFeedback env
        if !testsOk && decide (attempt < maxA) then
          (res4, fb3, false,
            [.agentInvoked prompt attempt, .gateRun .build attempt,
             .gateRun .lint attempt, .gateRun .tests attempt])
        else
          (res4, fb3, res4.build && res4.lint && res4.tests,
            [.agentInvoked prompt attempt, .gateRun .build attempt,
             .gateRun .lint attempt, .gateRun .tests attempt])
      else
        let res4 := { res3 with tests := true }
        (res4, fb2, res4.build && res4.lint && res4.tests,
          [.agentInvoked prompt attempt, .gateRun .build attempt,
           .gateRun .lint attempt])

/-- The retry loop `for (let attempt = 1; attempt <= MAX_FULL_ATTEMPTS;
attempt++)` (lines 428-544), written by recursion on the number of loop
iterations still allowed (`fuel = maxA + 1 - attempt`, so the loop exits
exactly when `attempt > maxA`). An exception inside an attempt body aborts
the loop and is propagated in the second component; the third component is
the event trace. -/
def fullLoopFuel (basePrompt : String) (hasTests : Bool)
    (envs : Nat → AttemptEnv) (maxA : Nat) :
    Nat → Nat → String → EvalResult → EvalResult × Option String × List Event
  | 0, _, _, res => (res, none, [])
  | fuel + 1, attempt, fb, res =>
    match (envs attempt).fault with
    | some e => ({ res with attempts := attempt }, some e, [])
    | none =>
      let step := fullAttempt basePrompt hasTests maxA (envs attempt) attempt fb res
      if step.2.2.1 then (step.1, none, step.2.2.2)
      else
        let next := fullLoopFuel basePrompt hasTests envs maxA fuel
          (attempt + 1) step.2.1 step.1
        (next.1, next.2.1, step.2.2.2 ++ next.2.2)

/-- The retry loop entered at a given attempt number. -/
def fullLoop (basePrompt : String) (hasTests : Bool) (envs : Nat → AttemptEnv)
    (maxA : Nat) (attempt : Nat) (fb : String) (res : EvalResult) :
    EvalResult × Option String × List Event :=
  fullLoopFuel basePrompt hasTests envs maxA (maxA + 1 - attempt) attempt fb res

/-- The catch clause (lines 545-548): `result.error = String(err)`, with
the gate booleans left at their last observed values. -/
def applyFault (res : EvalResult) : Option String → EvalResult
  | some e => { res with error := some e }
  | none => res

/-- Teardown of the finally block of `runEvalFull` (lines 548-557): stop
d3k, then `git checkout -- .`, `git clean -fd`, `git stash pop`. -/
def fullTeardown : List Event :=
  [.stopMonitor, .gitCheckout, .gitClean, .gitStashPop]

/-- Initial outcome record of `runEvalFull` (lines 355-363): all gates
false, `attempts` starts at 0. -/
def initFullResult (evalName : String) : EvalResult :=
  { name := evalName, build := false, lint := false, tests := false,
    duration := 0, attempts := 0, mode := .full, error := none }

/-- Initial outcome record of the single-shot `runEval` (lines 184-192):
all gates false, `attempts` fixed at 1. -/
def initSingleResult (evalName : String) : EvalResult :=
  { name := evalName, build := false, lint := false, tests := false,
    duration := 0, attempts := 1, mode := .firstShot, error := none }

/-- Body of the try block of `runEvalFull` (lines 380-547): stage fixture
and stub files, start d3k (`throw` after 30 failed polls), then run the
retry loop; an exception from any of these phases is caught and stored on
`result.error`. -/
def fullBody (evalName : String) (env : FullRunEnv) : EvalResult × List Event :=
  let res0 : EvalResult := initFullResult evalName
  match env.stagingFault with
  | some e => ({ res0 with error := some e }, [])
  | none =>
    let stageEvs := stageTestFiles env.testFiles ++
      stageStubFiles env.stubFiles env.fileExists
    if env.d3kReady then
      let out := fullLoop env.promptText (!env.testFiles.isEmpty) env.attempts
        MAX_FULL_ATTEMPTS 1 "" res0
      (applyFault out.1 out.2.1, stageEvs ++ .startMonitor :: out.2.2)
    else
      ({ res0 with error := some "Error: d3k server failed to start within 30s" },
        stageEvs)

/-- Guarded part of `runEvalFull` (stash, try/catch/finally, duration
stamp); always produces an outcome record. -/
def runEvalFullCore (evalName : String) (env : FullRunEnv) :
    EvalResult × List Event :=
  let body := fullBody evalName env
  ({ body.1 with duration := env.elapsedMs },
    .gitStash :: body.2 ++ fullTeardown)

/-- runEvalFull (lines 350-561). `getEvalPrompt` is called before the try
block (line 365), so a missing prompt file makes the whole function reject
(`.error`) without producing an outcome and without running teardown;
otherwise the guarded body runs and an outcome record is returned. -/
def runEvalFull (evalName : String) (env : FullRunEnv) :
    Except String (EvalResult × List Event) :=
  if env.promptExists then .ok (runEvalFullCore evalName env)
  else .error ("Error: Eval " ++ evalName ++ " not found")

/-- Body of the try block of the single-shot `runEval` (lines 206-337):
stage files, invoke the agent once, then run build, lint and tests
unconditionally (the test gate is skipped, and recorded as passed, when no
test files were staged). `attempts` is initialised to 1 and never touched. -/
def singleBody (evalName : String) (env : FullRunEnv) : EvalResult × List Event :=
  let res0 : EvalResult := initSingleResult evalName
  match env.stagingFault with
  | some e => ({ res0 with error := some e }, [])
  | none =>
    let stageEvs := stageTestFiles env.testFiles ++
      stageStubFiles env.stubFiles env.fileExists
    let a := env.attempts 1
    let res1 := { res0 with build := a.buildExit == 0 }
    let res2 := { res1 with lint := a.lintExit == 0 }
    let evs := stageEvs ++
      [.agentInvoked (mkFullPrompt env.promptText "") 1,
       .gateRun .build 1, .gateRun .lint 1]
    if !env.testFiles.isEmpty then
      ({ res2 with tests := a.testExit == 0 }, evs ++ [.gateRun .tests 1])
    else
      ({ res2 with tests := true }, evs)

/-- Guarded part of `runEval`: stash, try/catch/finally (its finally block
only restores the working tree; no monitor is involved), duration stamp. -/
def runEvalCore (evalName : String) (env : FullRunEnv) :
    EvalResult × List Event :=
  let body := singleBody evalName env
  ({ body.1 with duration := env.elapsedMs },
    .gitStash :: body.2 ++ [.gitCheckout, .gitClean, .gitStashPop])

/-- runEval (lines 182-348); like `runEvalFull`, a missing prompt file
rejects the returned promise. -/
def runEval (evalName : String) (env : FullRunEnv) :
    Except String (EvalResult × List Event) :=
  if env.promptExists then .ok (runEvalCore evalName env)
  else .error ("Error: Eval " ++ evalName ++ " not found")

/-- The per-eval loop of `main` (lines 701-710): one runner call per
evaluation identifier, with no try/catch around it, so a rejected runner
promise escapes `main` (the batch aborts; later evaluations never run and
no result list is produced). -/
def runBatch (fullMode : Bool) :
    List (String × FullRunEnv) → Except String (List EvalResult)
  | [] => .ok []
  | (n, env) :: rest =>
    match (if fullMode then runEvalFull n env else runEval n env) with
    | .error e => .error e
    | .ok out =>
      match runBatch fullMode rest with
      | .error e => .error e
      | .ok results => .ok (out.1 :: results)

/-- Shape of `result` inside one element of the JSON array written by
`writeJsonResults` (lines 631-643). -/
structure JsonResult where
  success : Bool
  buildSuccess : Bool
  lintSuccess : Bool
  testSuccess : Bool
  attempts : Nat
  duration : Nat
  error : Option String
deriving DecidableEq, Repr

/-- One element of the JSON array written by `writeJsonResults`. -/
structure JsonEntry where
  evalPath : String
  mode : RunMode
  result : JsonResult
deriving DecidableEq, Repr

/-- Mapping from one eval outcome to its JSON object:
`{evalPath, mode, result:{success, buildSuccess, lintSuccess, testSuccess,
attempts, duration, error}}` with `duration` in milliseconds
(`Math.round(r.duration * 1000)` applied to the stored seconds). -/
def jsonOf (r : EvalResult) : JsonEntry :=
  { evalPath := r.name, mode := r.mode,
    result :=
      { success := r.build && r.lint && r.tests,
        buildSuccess := r.build, lintSuccess := r.lint,
        testSuccess := r.tests, attempts := r.attempts,
        duration := r.duration, error := r.error } }

/-- writeJsonResults (lines 630-647): the array serialised to the
`--output` file. -/
def writeJsonResults (results : List EvalResult) : List JsonEntry :=
  results.map jsonOf

/-- Whether a batch run aborted with an escaped exception instead of
producing results. -/
def batchAborted (x : Except String (List EvalResult)) : Bool :=
  match x with
  | .error _ => true
  | .ok _ => false

/-- startD3k (lines 79-110) acting on the module-level handle `d3kProcess`
(line 77): spawn the dev server and store the handle. -/
def startD3k (pid : Nat) (handle : Option Nat) : Option Nat :=
  some pid

/-- stopD3k (lines 112-120): when a handle is held, kill that process and
clear the handle; otherwise do nothing. Returns the new handle and the
list of processes killed by this call. -/
def stopD3k : Option Nat → Option Nat × List Nat
  | some pid => (none, [pid])
  | none => (none, [])

/-- Attempt outcomes with every gate passing. -/
def passAttempt : AttemptEnv :=
  { fault := none, agentOut := "", browserErrors := none,
    buildExit := 0, buildStdout := "", buildStderr := "",
    lintExit := 0, lintStdout := "", lintStderr := "",
    testExit := 0, testStdout := "", testStderr := "" }

/-- Attempt outcomes with the build gate failing (exit code 1). -/
def failBuildAttempt : AttemptEnv := { passAttempt with buildExit := 1 }

/-- Run environment with no staged files, a ready d3k, and all gates
passing on every attempt. -/
def baseRunEnv : FullRunEnv :=
  { promptExists := true, promptText := "p", testFiles := [], stubFiles := [],
    fileExists := fun _ => false, stagingFault := none, d3kReady := true,
    attempts := fun _ => passAttempt, elapsedMs := 1500 }

/-- Environment whose build gate fails on every attempt. -/
def cenvC1 : FullRunEnv :=
  { baseRunEnv with attempts := fun _ => failBuildAttempt }

/-- Environment whose first attempt fails the build gate and whose later
attempts pass everything. -/
def cenvC2 : FullRunEnv :=
  { baseRunEnv with
    attempts := fun n => if n = 1 then failBuildAttempt else passAttempt }

/-- Environment whose staging phase throws (e.g. an unreadable fixture). -/
def cenvC3 : FullRunEnv :=
  { baseRunEnv with stagingFault := some "Error: ENOENT: no such file or directory" }

/-- Environment staging one fixture test file whose destination path
already exists in the working tree. -/
def cenvC6 : FullRunEnv :=
  { baseRunEnv with
    testFiles := ["src/app/page.test.tsx"]
    fileExists := fun p => p == "src/app/page.test.tsx" }

/-- Environment whose prompt file is missing from the evals cache. -/
def cenvNoPrompt : FullRunEnv :=
  { baseRunEnv with promptExists := false }

/-- Two-evaluation batch used to exercise the JSON output shape. -/
def c9Batch : List (String × FullRunEnv) :=
  [("001-a", baseRunEnv), ("002-b", cenvC1)]

/-- Results the two-evaluation batch produces. -/
def c9Results : List EvalResult :=
  [(runEvalFullCore "001-a" baseRunEnv).1, (runEvalFullCore "002-b" cenvC1).1]

theorem fullAttempt_attempts (b : String) (t : Bool) (m : Nat) (env : AttemptEnv)
    (a : Nat) (fb : String) (r : EvalResult) :
    (fullAttempt b t m env a fb r).1.attempts = a := by
  simp only [fullAttempt]
  split_ifs <;> rfl

theorem fullAttempt_error (b : String) (t : Bool) (m : Nat) (env : AttemptEnv)
    (a : Nat) (fb : String) (r : EvalResult) :
    (fullAttempt b t m env a fb r).1.error = r.error := by
  simp only [fullAttempt]
  split_ifs <;> rfl

theorem fullAttempt_events_shape (b : String) (t : Bool) (m : Nat) (env : AttemptEnv)
    (a : Nat) (fb : String) (r : EvalResult) :
    ∃ gs : List Gate, (fullAttempt b t m env a fb r).2.2.2 =
      .agentInvoked (mkFullPrompt b fb) a :: gs.map (fun g => .gateRun g a) := by
  simp only [fullAttempt]
  split_ifs <;> first
    | exact ⟨[Gate.build], rfl⟩
    | exact ⟨[Gate.build, Gate.lint], rfl⟩
    | exact ⟨[Gate.build, Gate.lint, Gate.tests], rfl⟩

theorem fullAttempt_events_mem (b : String) (t : Bool) (m : Nat) (env : AttemptEnv)
    (a : Nat) (fb : String) (r : EvalResult) (e : Event)
    (h : e ∈ (fullAttempt b t m env a fb r).2.2.2) :
    e = .agentInvoked (mkFullPrompt b fb) a ∨ ∃ g, e = .gateRun g a := by
  obtain ⟨gs, hs⟩ := fullAttempt_events_shape b t m env a fb r
  rw [hs] at h
  rcases List.mem_cons.mp h with rfl | h
  · exact Or.inl rfl
  · obtain ⟨g, _, rfl⟩ := List.mem_map.mp h
    exact Or.inr ⟨g, rfl⟩

theorem fullAttempt_break_of_allPass (b : String) (t : Bool) (m : Nat)
    (env : AttemptEnv) (a : Nat) (fb : String) (r : EvalResult)
    (hp : attemptAllPass env t = true) :
    (fullAttempt b t m env a fb r).2.2.1 = true := by
  simp only [attemptAllPass, Bool.and_eq_true] at hp
  obtain ⟨⟨hb, hl⟩, ht⟩ := hp
  simp only [fullAttempt]
  split_ifs <;> simp_all

theorem fullAttempt_feedback (b : String) (t : Bool) (m : Nat)
    (env : AttemptEnv) (a : Nat) (fb : String) (r : EvalResult)
    (hlt : a < m)
    (hbr : (fullAttempt b t m env a fb r).2.2.1 = false) :
    (fullAttempt b t m env a fb r).2.1 = firstFailText env t ∧
      attemptFailed env t = true := by
  simp only [fullAttempt] at hbr ⊢
  split_ifs at hbr ⊢ <;> simp_all [firstFailText, attemptFailed, bne]

theorem fullAttempt_not_success (b : String) (t : Bool) (m : Nat)
    (env : AttemptEnv) (a : Nat) (fb : String) (r : EvalResult)
    (hbr : (fullAttempt b t m env a fb r).2.2.1 = false) :
    ((fullAttempt b t m env a fb r).1.build &&
     (fullAttempt b t m env a fb r).1.lint &&
     (fullAttempt b t m env a fb r).1.tests) = false := by
  simp only [fullAttempt] at hbr ⊢
  split_ifs at hbr ⊢ <;> simp_all

theorem fullLoopFuel_attempts_ge (b : String) (t : Bool)
    (envs : Nat → AttemptEnv) (m : Nat) :
    ∀ fuel a fb res, 1 ≤ fuel →
      a ≤ (fullLoopFuel b t envs m fuel a fb res).1.attempts := by
  intro fuel
  induction fuel with
  | zero => intro a fb res h; exact absurd h (by omega)
  | succ n ih =>
    intro a fb res _
    simp only [fullLoopFuel]
    split
    · simp
    · split
      · simpa using (fullAttempt_attempts b t m _ a fb res).ge
      · cases n with
        | zero =>
          simp only [fullLoopFuel]
          simpa using (fullAttempt_attempts b t m _ a fb res).ge
        | succ k =>
          have h := ih (a + 1) (fullAttempt b t m (envs a) a fb res).2.1
            (fullAttempt b t m (envs a) a fb res).1 (by omega)
          simp only []
          omega

theorem fullLoopFuel_attempts_le (b : String) (t : Bool)
    (envs : Nat → AttemptEnv) (m : Nat) :
    ∀ fuel a fb res, a + fuel ≤ m + 1 → res.attempts ≤ m →
      (fullLoopFuel b t envs m fuel a fb res).1.attempts ≤ m := by
  intro fuel
  induction fuel with
  | zero => intro a fb res _ h; simpa [fullLoopFuel] using h
  | succ n ih =>
    intro a fb res hle h
    simp only [fullLoopFuel]
    split
    · simpa using by omega
    · split
      · simpa using by rw [fullAttempt_attempts]; omega
      · exact ih (a + 1) _ _ (by omega) (by rw [fullAttempt_attempts]; omega)

theorem fullLoopFuel_error (b : String) (t : Bool)
    (envs : Nat → AttemptEnv) (m : Nat) :
    ∀ fuel a fb res,
      (fullLoopFuel b t envs m fuel a fb res).1.error = res.error := by
  intro fuel
  induction fuel with
  | zero => intro a fb res; rfl
  | succ n ih =>
    intro a fb res
    simp only [fullLoopFuel]
    split
    · simp
    · split
      · simpa using fullAttempt_error b t m _ a fb res
      · rw [ih (a + 1) _ _]
        exact fullAttempt_error b t m _ a fb res

theorem fullLoopFuel_fault_not_success (b : String) (t : Bool)
    (envs : Nat → AttemptEnv) (m : Nat) :
    ∀ fuel a fb res, (res.build && res.lint && res.tests) = false →
      ((fullLoopFuel b t envs m fuel a fb res).2.1).isSome = true →
      ((fullLoopFuel b t envs m fuel a fb res).1.build &&
       (fullLoopFuel b t envs m fuel a fb res).1.lint &&
       (fullLoopFuel b t envs m fuel a fb res).1.tests) = false := by
  intro fuel
  induction fuel with
  | zero => intro a fb res h hs; simp [fullLoopFuel] at hs
  | succ n ih =>
    intro a fb res h hs
    simp only [fullLoopFuel] at hs ⊢
    split at hs
    · rename_i e heq
      try simp only [heq]
      simpa using h
    · rename_i heq
      split at hs
      · simp at hs
      · rename_i hbrk
        try simp only [heq]
        rw [if_neg hbrk]
        exact ih (a + 1) _ _
          (fullAttempt_not_success b t m _ a fb res (Bool.not_eq_true _ ▸ hbrk)) hs

theorem fullAttempt_agent_eq (b : String) (t : Bool) (m : Nat) (env : AttemptEnv)
    (a : Nat) (fb : String) (r : EvalResult) (p : String) (j : Nat)
    (h : Event.agentInvoked p j ∈ (fullAttempt b t m env a fb r).2.2.2) :
    p = mkFullPrompt b fb ∧ j = a := by
  rcases fullAttempt_events_mem b t m env a fb r _ h with h' | ⟨g, h'⟩
  · injection h' with h1 h2
    exact ⟨h1, h2⟩
  · exact absurd h' (by simp)

theorem fullLoopFuel_agent_events (b : String) (t : Bool)
    (envs : Nat → AttemptEnv) (m : Nat) :
    ∀ fuel a fb res, a + fuel ≤ m + 1 →
      ∀ p j, Event.agentInvoked p j ∈ (fullLoopFuel b t envs m fuel a fb res).2.2 →
        a ≤ j ∧
        (j = a → p = mkFullPrompt b fb) ∧
        (a < j → attemptFailed (envs (j - 1)) t = true ∧
          p = mkFullPrompt b (firstFailText (envs (j - 1)) t)) := by
  intro fuel
  induction fuel with
  | zero => intro a fb res hle p j hmem; simp [fullLoopFuel] at hmem
  | succ n ih =>
    intro a fb res hle p j hmem
    simp only [fullLoopFuel] at hmem
    split at hmem
    · simp at hmem
    · rename_i heq
      split at hmem
      · rename_i hbrk
        obtain ⟨hp, hj⟩ := fullAttempt_agent_eq b t m (envs a) a fb res p j hmem
        exact ⟨hj.ge, fun _ => hp, fun hlt => absurd hj (by omega)⟩
      · rename_i hbrk
        rcases List.mem_append.mp hmem with hm1 | hm2
        · obtain ⟨hp, hj⟩ := fullAttempt_agent_eq b t m (envs a) a fb res p j hm1
          exact ⟨hj.ge, fun _ => hp, fun hlt => absurd hj (by omega)⟩
        · cases n with
          | zero => simp [fullLoopFuel] at hm2
          | succ k =>
            have hlt : a < m := by omega
            obtain ⟨hfb, hfailed⟩ := fullAttempt_feedback b t m (envs a) a fb res hlt
              (Bool.not_eq_true _ ▸ hbrk)
            obtain ⟨h1, h2, h3⟩ := ih (a + 1) _ _ (by omega) p j hm2
            refine ⟨by omega, fun hja => absurd (hja ▸ h1) (by omega), fun _ => ?_⟩
            rcases Nat.lt_or_ge (a + 1) j with hj2 | hj2
            · exact h3 hj2
            · have hja : j = a + 1 := by omega
              subst hja
              rw [h2 rfl, hfb]
              simpa using hfailed

theorem agent_not_mem_stageTestFiles (p : String) (j : Nat) (l : List String) :
    Event.agentInvoked p j ∉ stageTestFiles l := by
  intro h
  obtain ⟨x, _, hx⟩ := List.mem_map.mp h
  exact Event.noConfusion hx

theorem agent_not_mem_stageStubFiles (p : String) (j : Nat) (l : List String)
    (f : String → Bool) :
    Event.agentInvoked p j ∉ stageStubFiles l f := by
  intro h
  obtain ⟨x, _, hx⟩ := List.mem_map.mp h
  exact Event.noConfusion hx

theorem agentCount_stageTestFiles (l : List String) :
    agentCount (stageTestFiles l) = 0 := by
  induction l with
  | nil => rfl
  | cons x xs ih => simpa [stageTestFiles, agentCount, isAgentEvent] using ih

theorem agentCount_stageStubFiles (l : List String) (f : String → Bool) :
    agentCount (stageStubFiles l f) = 0 := by
  induction l with
  | nil => rfl
  | cons x xs ih =>
    simp only [stageStubFiles, List.filter_cons] at ih ⊢
    split
    · simpa [agentCount, isAgentEvent] using ih
    · exact ih

theorem gatesOf_stageTestFiles (l : List String) :
    gatesOf (stageTestFiles l) = [] := by
  induction l with
  | nil => rfl
  | cons x xs ih => simpa [stageTestFiles, gatesOf] using ih

theorem gatesOf_stageStubFiles (l : List String) (f : String → Bool) :
    gatesOf (stageStubFiles l f) = [] := by
  induction l with
  | nil => rfl
  | cons x xs ih =>
    simp only [stageStubFiles, List.filter_cons] at ih ⊢
    split
    · simpa [gatesOf] using ih
    · exact ih

theorem fullBody_agent_mem (evalName : String) (env : FullRunEnv) (p : String)
    (j : Nat) (h : Event.agentInvoked p j ∈ (fullBody evalName env).2) :
    Event.agentInvoked p j ∈
      (fullLoop env.promptText (!env.testFiles.isEmpty) env.attempts
        MAX_FULL_ATTEMPTS 1 "" (initFullResult evalName)).2.2 := by
  simp only [fullBody] at h
  split at h
  · simp at h
  · split at h
    · rcases List.mem_append.mp h with h1 | h1
      · rcases List.mem_append.mp h1 with h2 | h2
        · exact absurd h2 (agent_not_mem_stageTestFiles p j _)
        · exact absurd h2 (agent_not_mem_stageStubFiles p j _ _)
      · rcases List.mem_cons.mp h1 with h2 | h2
        · exact Event.noConfusion h2
        · exact h2
    · rcases List.mem_append.mp h with h2 | h2
      · exact absurd h2 (agent_not_mem_stageTestFiles p j _)
      · exact absurd h2 (agent_not_mem_stageStubFiles p j _ _)

theorem runEvalFullCore_agent_mem (evalName : String) (env : FullRunEnv)
    (p : String) (j : Nat)
    (h : Event.agentInvoked p j ∈ (runEvalFullCore evalName env).2) :
    Event.agentInvoked p j ∈
      (fullLoop env.promptText (!env.testFiles.isEmpty) env.attempts
        MAX_FULL_ATTEMPTS 1 "" (initFullResult evalName)).2.2 := by
  simp only [runEvalFullCore, fullTeardown] at h
  rcases List.mem_cons.mp h with h1 | h1
  · exact Event.noConfusion h1
  · rcases List.mem_append.mp h1 with h2 | h2
    · exact fullBody_agent_mem evalName env p j h2
    · simp at h2

/-- C2: for every full-mode run, the feedback text appended to attempt
k+1's instruction payload is exactly the captured failure output of attempt
k's first failing gate - build's output if build failed, otherwise lint's,
otherwise the test gate's - and never feedback captured in an earlier
attempt: the prompt of the agent invocation numbered k+1 equals the base
prompt extended with attempt k's first-failing-gate text, a function of
attempt k's observed outcomes alone. -/
theorem c2_feedback_from_first_failing_gate (evalName : String)
    (env : FullRunEnv) (p : String) (k : Nat) (hk : 1 ≤ k)
    (hmem : Event.agentInvoked p (k + 1) ∈ (runEvalFullCore evalName env).2) :
    attemptFailed (env.attempts k) (!env.testFiles.isEmpty) = true ∧
    p = mkFullPrompt env.promptText
      (firstFailText (env.attempts k) (!env.testFiles.isEmpty)) := by
  have h := runEvalFullCore_agent_mem evalName env p (k + 1) hmem
  simp only [fullLoop] at h
  have hfuel : MAX_FULL_ATTEMPTS + 1 - 1 = MAX_FULL_ATTEMPTS := rfl
  rw [hfuel] at h
  obtain ⟨h1, h2, h3⟩ := fullLoopFuel_agent_events env.promptText
    (!env.testFiles.isEmpty) env.attempts MAX_FULL_ATTEMPTS MAX_FULL_ATTEMPTS 1 ""
    (initFullResult evalName) (by omega) p (k + 1) h
  have := h3 (by omega)
  simpa using this

set_option maxRecDepth 16384 in
theorem c2_witness :
    attemptFailed (cenvC2.attempts 1) (!cenvC2.testFiles.isEmpty) = true ∧
    mkFullPrompt cenvC2.promptText (buildFeedback failBuildAttempt) =
      mkFullPrompt cenvC2.promptText
        (firstFailText (cenvC2.attempts 1) (!cenvC2.testFiles.isEmpty)) :=
  (c2_feedback_from_first_failing_gate "001-a" cenvC2
    (mkFullPrompt cenvC2.promptText (buildFeedback failBuildAttempt)) 1
    (by omega) (by decide)).imp id fun h => by rw [h]

/-- C4: for every full-mode run, if the build, lint and test gates all pass
on attempt k (with the test gate trivially passing when no test files were
staged), the retry loop terminates immediately: starting the loop at
attempt k, the outcome records attempts = k and the agent is never invoked
with an attempt number other than k (in particular there is no attempt
k+1). -/
theorem c4_early_exit_on_full_pass (basePrompt : String) (hasTests : Bool)
    (envs : Nat → AttemptEnv) (maxA k : Nat) (fb : String) (res : EvalResult)
    (hk : k ≤ maxA) (hf : (envs k).fault = none)
    (hp : attemptAllPass (envs k) hasTests = true) :
    (fullLoop basePrompt hasTests envs maxA k fb res).1.attempts = k ∧
    ∀ p j, Event.agentInvoked p j ∈
        (fullLoop basePrompt hasTests envs maxA k fb res).2.2 → j = k := by
  have hfuel : maxA + 1 - k = (maxA - k) + 1 := by omega
  simp only [fullLoop, hfuel, fullLoopFuel]
  split
  · rename_i e heq
    rw [hf] at heq
    exact Option.noConfusion heq
  · rename_i heq
    have hbrk := fullAttempt_break_of_allPass basePrompt hasTests maxA (envs k)
      k fb res hp
    rw [if_pos hbrk]
    refine ⟨fullAttempt_attempts basePrompt hasTests maxA (envs k) k fb res, ?_⟩
    intro p j hj
    exact (fullAttempt_agent_eq basePrompt hasTests maxA (envs k) k fb res p j hj).2

theorem c4_witness :
    (fullLoop "p" false (fun _ => passAttempt) 3 1 ""
      (initFullResult "001-a")).1.attempts = 1 :=
  (c4_early_exit_on_full_pass "p" false (fun _ => passAttempt) 3 1 ""
    (initFullResult "001-a") (by omega) (by decide) (by decide)).1

theorem gatesOf_append (a b : List Event) :
    gatesOf (a ++ b) = gatesOf a ++ gatesOf b := by
  simp [gatesOf]

theorem applyFault_attempts (r : EvalResult) (o : Option String) :
    (applyFault r o).attempts = r.attempts := by
  cases o <;> rfl

theorem applyFault_build (r : EvalResult) (o : Option String) :
    (applyFault r o).build = r.build := by
  cases o <;> rfl

theorem applyFault_lint (r : EvalResult) (o : Option String) :
    (applyFault r o).lint = r.lint := by
  cases o <;> rfl

theorem applyFault_tests (r : EvalResult) (o : Option String) :
    (applyFault r o).tests = r.tests := by
  cases o <;> rfl

/-- C1 (amended): gates always run in the fixed order build, lint, tests,
but the short-circuit holds only on full-mode attempts before the final
one: each `continue` is guarded by `attempt < MAX_FULL_ATTEMPTS`, so on the
final allowed attempt a failed build or lint does not skip the later gates,
and in single-shot mode all gates run unconditionally whatever the earlier
gates' outcomes. -/
theorem c1_gates_fixed_order_qualified_skip :
    (∀ basePrompt hasTests maxA env attempt fb res,
      gatesOf (fullAttempt basePrompt hasTests maxA env attempt fb res).2.2.2 =
        if !(env.buildExit == 0) && decide (attempt < maxA) then [Gate.build]
        else if !(env.lintExit == 0) && decide (attempt < maxA) then
          [Gate.build, Gate.lint]
        else if hasTests then [Gate.build, Gate.lint, Gate.tests]
        else [Gate.build, Gate.lint]) ∧
    (∀ evalName env, env.stagingFault = none →
      gatesOf (runEvalCore evalName env).2 =
        if env.testFiles.isEmpty then [Gate.build, Gate.lint]
        else [Gate.build, Gate.lint, Gate.tests]) := by
  constructor
  · intro basePrompt hasTests maxA env attempt fb res
    simp only [fullAttempt]
    split_ifs <;> rfl
  · intro evalName env h
    have hstash : ∀ l : List Event, gatesOf (Event.gitStash :: l) = gatesOf l := by
      intro l
      simp [gatesOf]
    simp only [runEvalCore, singleBody, h]
    cases hT : env.testFiles.isEmpty <;>
      · simp only [hT, Bool.not_false, Bool.not_true, if_true, if_false,
          Bool.false_eq_true, Bool.true_eq_false]
        simp only [hstash, gatesOf_append, gatesOf_stageTestFiles,
          gatesOf_stageStubFiles, List.nil_append]
        rfl

set_option maxRecDepth 16384 in
theorem c1_counterexample :
    (cenvC1.attempts 3).buildExit ≠ 0 ∧
    Event.gateRun Gate.build 3 ∈ (runEvalFullCore "001-a" cenvC1).2 ∧
    Event.gateRun Gate.lint 3 ∈ (runEvalFullCore "001-a" cenvC1).2 := by
  decide

theorem c1_witness :
    gatesOf (runEvalCore "001-a" cenvC1).2 =
      if cenvC1.testFiles.isEmpty then [Gate.build, Gate.lint]
      else [Gate.build, Gate.lint, Gate.tests] :=
  c1_gates_fixed_order_qualified_skip.2 "001-a" cenvC1 (by decide)

/-- C3 (amended): the outcome's `attempts` field never exceeds the
configured maximum of 3, and it is at least 1 whenever no unexpected fault
struck before the first attempt began (i.e. staging did not throw and the
d3k server became ready); when such a pre-loop fault occurs the record is
produced with `attempts = 0`. -/
theorem c3_attempts_bounded (evalName : String) (env : FullRunEnv) :
    (runEvalFullCore evalName env).1.attempts ≤ MAX_FULL_ATTEMPTS ∧
    (env.stagingFault = none → env.d3kReady = true →
      1 ≤ (runEvalFullCore evalName env).1.attempts) := by
  constructor
  · simp only [runEvalFullCore, fullBody]
    split
    · simp [initFullResult, MAX_FULL_ATTEMPTS]
    · split
      · rw [applyFault_attempts]
        simp only [fullLoop]
        exact fullLoopFuel_attempts_le _ _ _ _ _ _ _ _ (by omega)
          (by simp [initFullResult])
      · simp [initFullResult, MAX_FULL_ATTEMPTS]
  · intro h1 h2
    simp only [runEvalFullCore, fullBody, h1, h2, if_true]
    rw [applyFault_attempts]
    simp only [fullLoop]
    exact fullLoopFuel_attempts_ge _ _ _ _ _ _ _ _ (by decide)

theorem c3_counterexample :
    (runEvalFullCore "003-add-route" cenvC3).1.attempts = 0 ∧
    (runEvalFullCore "003-add-route" cenvC3).1.error =
      some "Error: ENOENT: no such file or directory" := by
  decide

theorem c3_witness :
    (runEvalFullCore "001-a" baseRunEnv).1.attempts ≤ MAX_FULL_ATTEMPTS ∧
    1 ≤ (runEvalFullCore "001-a" baseRunEnv).1.attempts :=
  ⟨(c3_attempts_bounded "001-a" baseRunEnv).1,
   (c3_attempts_bounded "001-a" baseRunEnv).2 rfl rfl⟩

theorem runEvalFullCore_stagingFault_error (evalName : String)
    (env : FullRunEnv) (e : String) (he : env.stagingFault = some e) :
    (runEvalFullCore evalName env).1.error = some e := by
  simp only [runEvalFullCore, fullBody, he]

/-- C5: an unexpected fault raised during staging, agent invocation or
gate verification is caught and stored as the outcome's `error` field, an
outcome carrying an error never counts as a success, and teardown executes
on every exit path of the guarded body: the three working-tree restore
commands are a suffix of the full-mode trace (preceded by the monitor
stop) and of the single-shot trace. -/
theorem c5_fault_captured_and_teardown_runs (evalName : String)
    (env : FullRunEnv) :
    (∀ e, env.stagingFault = some e →
      (runEvalFullCore evalName env).1.error = some e) ∧
    (env.stagingFault = none → env.d3kReady = false →
      (runEvalFullCore evalName env).1.error =
        some "Error: d3k server failed to start within 30s") ∧
    (∀ e, env.stagingFault = none → env.d3kReady = true →
      (env.attempts 1).fault = some e →
      (runEvalFullCore evalName env).1.error = some e) ∧
    ((runEvalFullCore evalName env).1.error.isSome = true →
      ((runEvalFullCore evalName env).1.build &&
       (runEvalFullCore evalName env).1.lint &&
       (runEvalFullCore evalName env).1.tests) = false) ∧
    List.IsSuffix fullTeardown (runEvalFullCore evalName env).2 ∧
    (∀ e, env.stagingFault = some e →
      (runEvalCore evalName env).1.error = some e) ∧
    List.IsSuffix [Event.gitCheckout, Event.gitClean, Event.gitStashPop]
      (runEvalCore evalName env).2 := by
  refine ⟨?_, ?_, ?_, ?_, ?_, ?_, ?_⟩
  · intro e he
    exact runEvalFullCore_stagingFault_error evalName env e he
  · intro h1 h2
    simp [runEvalFullCore, fullBody, h1, h2]
  · intro e h1 h2 hf
    simp only [runEvalFullCore, fullBody, h1, h2, if_true]
    have hloop : fullLoop env.promptText (!env.testFiles.isEmpty) env.attempts
        MAX_FULL_ATTEMPTS 1 "" (initFullResult evalName) =
        ({ initFullResult evalName with attempts := 1 }, some e, []) := by
      simp only [fullLoop]
      rw [show MAX_FULL_ATTEMPTS + 1 - 1 = 2 + 1 from rfl]
      simp only [fullLoopFuel, hf]
    rw [hloop]
    rfl
  · intro hs
    cases hsf : env.stagingFault with
    | some e =>
      simp [runEvalFullCore, fullBody, hsf, initFullResult]
    | none =>
      cases hd : env.d3kReady with
      | false => simp [runEvalFullCore, fullBody, hsf, hd, initFullResult]
      | true =>
        simp only [runEvalFullCore, fullBody, hsf, hd, if_true] at hs ⊢
        rw [applyFault_build, applyFault_lint, applyFault_tests]
        simp only [fullLoop] at hs ⊢
        cases ho : (fullLoopFuel env.promptText (!env.testFiles.isEmpty)
            env.attempts MAX_FULL_ATTEMPTS (MAX_FULL_ATTEMPTS + 1 - 1) 1 ""
            (initFullResult evalName)).2.1 with
        | none =>
          rw [ho] at hs
          simp only [applyFault] at hs
          rw [fullLoopFuel_error] at hs
          simp [initFullResult] at hs
        | some e =>
          exact fullLoopFuel_fault_not_success _ _ _ _ _ _ _ _
            (by simp [initFullResult]) (by rw [ho]; rfl)
  · exact ⟨Event.gitStash :: (fullBody evalName env).2, by simp [runEvalFullCore]⟩
  · intro e he
    simp only [runEvalCore, singleBody, he]
  · exact ⟨Event.gitStash :: (singleBody evalName env).2, by simp [runEvalCore]⟩

theorem c5_witness :
    (runEvalFullCore "003-add-route" cenvC3).1.error =
      some "Error: ENOENT: no such file or directory" ∧
    ((runEvalFullCore "003-add-route" cenvC3).1.build &&
     (runEvalFullCore "003-add-route" cenvC3).1.lint &&
     (runEvalFullCore "003-add-route" cenvC3).1.tests) = false ∧
    List.IsSuffix fullTeardown (runEvalFullCore "003-add-route" cenvC3).2 :=
  ⟨(c5_fault_captured_and_teardown_runs "003-add-route" cenvC3).1 _ rfl,
   (c5_fault_captured_and_teardown_runs "003-add-route" cenvC3).2.2.2.1 (by decide),
   (c5_fault_captured_and_teardown_runs "003-add-route" cenvC3).2.2.2.2.1⟩

theorem agentCount_append (a b : List Event) :
    agentCount (a ++ b) = agentCount a + agentCount b := by
  simp [agentCount, List.filter_append]

theorem agentCount_gitStash_cons (l : List Event) :
    agentCount (Event.gitStash :: l) = agentCount l := by
  simp [agentCount, isAgentEvent]

/-- C6 (amended): during staging, stub source files are copied only when no
file already exists at the destination path, but test fixture files are
copied unconditionally - a fixture copy happens even when a file already
exists at its destination, overwriting it. -/
theorem c6_staging_overwrite_policy :
    (∀ stubFiles fileExists p,
      Event.copyStubFile p ∈ stageStubFiles stubFiles fileExists →
        fileExists p = false) ∧
    (∀ testFiles, stageTestFiles testFiles =
      testFiles.map fun p => Event.copyTestFile p) := by
  constructor
  · intro stubFiles fileExists p h
    obtain ⟨q, hq, hqe⟩ := List.mem_map.mp h
    injection hqe with h1
    subst h1
    have hmem := List.of_mem_filter hq
    simp only [Bool.and_eq_true, Bool.not_eq_true'] at hmem
    exact hmem.2
  · intro testFiles
    rfl

theorem c6_counterexample :
    cenvC6.fileExists "src/app/page.test.tsx" = true ∧
    Event.copyTestFile "src/app/page.test.tsx" ∈
      (runEvalFullCore "006-a" cenvC6).2 := by
  decide

theorem c6_witness :
    ((fun _ => false) : String → Bool) "src/x.ts" = false :=
  c6_staging_overwrite_policy.1 ["src/x.ts"] (fun _ => false) "src/x.ts" (by decide)

/-- C7 (amended): an error raised inside the guarded staging/attempt phase
(fixture copying, d3k startup, agent invocation, gate verification) is
caught, stored in that evaluation's outcome `error` field, and the batch
proceeds to the next evaluation identifier; but a missing prompt file
throws before the guarded region, so it aborts the entire batch without
producing an outcome for that or any later evaluation. -/
theorem c7_caught_faults_keep_batch_running (n : String) (env : FullRunEnv)
    (rest : List (String × FullRunEnv)) (hp : env.promptExists = true) :
    runBatch true ((n, env) :: rest) =
      (runBatch true rest).map (fun rs => (runEvalFullCore n env).1 :: rs) ∧
    (∀ e, env.stagingFault = some e →
      (runEvalFullCore n env).1.error = some e) := by
  constructor
  · simp only [runBatch, runEvalFull, hp, if_true]
    cases runBatch true rest <;> rfl
  · intro e he
    exact runEvalFullCore_stagingFault_error n env e he

theorem c7_counterexample :
    batchAborted
      (runBatch true [("001-a", cenvNoPrompt), ("002-b", baseRunEnv)]) = true ∧
    cenvNoPrompt.promptExists = false := by
  decide

theorem c7_witness :
    runBatch true [("003-add-route", cenvC3)] =
      (runBatch true []).map
        (fun rs => (runEvalFullCore "003-add-route" cenvC3).1 :: rs) ∧
    (runEvalFullCore "003-add-route" cenvC3).1.error =
      some "Error: ENOENT: no such file or directory" :=
  ⟨(c7_caught_faults_keep_batch_running "003-add-route" cenvC3 [] rfl).1,
   (c7_caught_faults_keep_batch_running "003-add-route" cenvC3 [] rfl).2 _ rfl⟩

/-- C8: in single-shot mode (`--full` absent), the produced outcome always
has attempts = 1, and when staging does not throw, the external coding
agent is invoked exactly once, with no retry whatever the build, lint and
test outcomes are. -/
theorem c8_single_shot_single_invocation (evalName : String)
    (env : FullRunEnv) :
    (runEvalCore evalName env).1.attempts = 1 ∧
    (env.stagingFault = none →
      agentCount (runEvalCore evalName env).2 = 1) := by
  constructor
  · simp only [runEvalCore, singleBody]
    split
    · rfl
    · split <;> rfl
  · intro h
    simp only [runEvalCore, singleBody, h]
    cases hT : env.testFiles.isEmpty <;>
      · simp only [hT, Bool.not_false, Bool.not_true, if_true, if_false,
          Bool.false_eq_true, Bool.true_eq_false]
        simp only [agentCount_gitStash_cons, agentCount_append,
          agentCount_stageTestFiles, agentCount_stageStubFiles]
        rfl

theorem c8_witness :
    (runEvalCore "003-add-route" baseRunEnv).1.attempts = 1 ∧
    agentCount (runEvalCore "003-add-route" baseRunEnv).2 = 1 :=
  ⟨(c8_single_shot_single_invocation "003-add-route" baseRunEnv).1,
   (c8_single_shot_single_invocation "003-add-route" baseRunEnv).2 rfl⟩

/-- C9: the JSON array written for `--output` is `writeJsonResults` applied
to the batch results: one object per result, of shape {evalPath, mode,
result} whose result carries success (the conjunction of the three gate
booleans), buildSuccess, lintSuccess, testSuccess, attempts, duration in
milliseconds and error; and when a batch of N evaluations completes, the
array has exactly N objects. -/
theorem c9_json_output_shape :
    (∀ rs : List EvalResult, writeJsonResults rs = rs.map jsonOf) ∧
    (∀ r : EvalResult,
      (jsonOf r).evalPath = r.name ∧
      (jsonOf r).mode = r.mode ∧
      (jsonOf r).result.success = (r.build && r.lint && r.tests) ∧
      (jsonOf r).result.buildSuccess = r.build ∧
      (jsonOf r).result.lintSuccess = r.lint ∧
      (jsonOf r).result.testSuccess = r.tests ∧
      (jsonOf r).result.attempts = r.attempts ∧
      (jsonOf r).result.duration = r.duration ∧
      (jsonOf r).result.error = r.error) ∧
    (∀ batch : List (String × FullRunEnv), ∀ rs : List EvalResult,
      runBatch true batch = .ok rs →
      (writeJsonResults rs).length = batch.length) := by
  refine ⟨fun rs => rfl,
    fun r => ⟨rfl, rfl, rfl, rfl, rfl, rfl, rfl, rfl, rfl⟩, ?_⟩
  intro batch
  induction batch with
  | nil =>
    intro rs h
    simp only [runBatch] at h
    injection h with h1
    subst h1
    rfl
  | cons x rest ih =>
    intro rs h
    obtain ⟨n, env⟩ := x
    simp only [runBatch, if_true] at h
    split at h
    · exact Except.noConfusion h
    · split at h
      · exact Except.noConfusion h
      · rename_i rs' hrs
        injection h with h1
        subst h1
        have hlen := ih rs' hrs
        simp only [writeJsonResults, List.map_cons, List.length_cons,
          List.length_map] at hlen ⊢
        omega

theorem c9_witness :
    (writeJsonResults c9Results).length = c9Batch.length :=
  c9_json_output_shape.2.2 c9Batch c9Results (by rfl)

/-- C10: stopping the monitor is idempotent: after `startD3k` stored a
handle, the first `stopD3k` kills exactly that process and clears the
module-level handle, a second `stopD3k` then kills nothing, and a `stopD3k`
with no process ever started is a no-op that kills nothing; the handle is
always cleared afterwards. -/
theorem c10_stopD3k_idempotent :
    (∀ pid handle, stopD3k (startD3k pid handle) = (none, [pid])) ∧
    (∀ pid handle, (stopD3k (stopD3k (startD3k pid handle)).1).2 = []) ∧
    stopD3k none = (none, []) ∧
    (∀ s, (stopD3k s).1 = none) := by
  refine ⟨fun pid handle => rfl, fun pid handle => rfl, rfl, fun s => ?_⟩
  cases s <;> rfl
